import Mathlib

/-!
Verification of the max112x driver (MAX11214 24-bit delta-sigma ADC).

Shallow embedding of the repository sources:
  - `src/command.rs`   : the `Command` bitflags and command-byte constructors;
  - `src/register.rs`  : the register bitflag types (`Stat`, `Ctrl1`, `Ctrl2`,
    `Ctrl5`, ...) with their addresses, defined-bit masks and `Stat::rate`;
  - `src/types.rs`     : the `u24` codec, `ConversionRate`, `Status` accessors
    and `Status::state`;
  - `src/lib.rs`       : the SPI transaction traces produced by the driver
    operations (`into_standby`, `into_sleep`, `start_conversion`, `set_clock`,
    `set_format`, `set_pga`, `self_calibrate`), including the
    read-modify-write helper `modify_reg_u8`.

Machine bytes and words are modelled as `Nat` with explicit truncation where
the Rust code truncates (`u8` shifts, bitflags `from_bits_truncate`).
-/

/-- Bitflags `difference` on a byte-sized flag type: Rust computes
`self.bits & !other.bits` where `!` is the `u8` complement, i.e.
`a &&& (0xFF ^^^ f)`. -/
def byteDiff (a f : Nat) : Nat := a &&& (0xFF ^^^ f)

/-- Bitflags `contains`: Rust computes `self.bits & other.bits == other.bits`. -/
def containsBits (s f : Nat) : Bool := (s &&& f) == f

/-- Bitflags `set`: insert the flag when the condition holds, remove it
otherwise (used by `start_conversion` for `Ctrl1::SCYCLE`). -/
def bitSet (v flag : Nat) (cond : Bool) : Nat :=
  if cond then v ||| flag else byteDiff v flag

/-- Conversion rate enumeration from `src/types.rs` (discriminants `0b0000`
to `0b1111`). -/
inductive ConversionRate where
  | Hz0_95
  | Hz1_9
  | Hz3_9
  | Hz7_8
  | Hz15_6
  | Hz31_25
  | Hz62_5
  | Hz125
  | Hz250
  | Hz500
  | Hz1000
  | Hz2000
  | Hz4000
  | Hz8000
  | Hz16000
  | Hz32000
deriving DecidableEq

/-- Discriminant of each `ConversionRate` constructor, as declared in
`src/types.rs` (`Hz0_95 = 0b0000`, ..., `Hz32000 = 0b1111`). -/
def ConversionRate.code : ConversionRate → Nat
  | ConversionRate.Hz0_95 => 0b0000
  | ConversionRate.Hz1_9 => 0b0001
  | ConversionRate.Hz3_9 => 0b0010
  | ConversionRate.Hz7_8 => 0b0011
  | ConversionRate.Hz15_6 => 0b0100
  | ConversionRate.Hz31_25 => 0b0101
  | ConversionRate.Hz62_5 => 0b0110
  | ConversionRate.Hz125 => 0b0111
  | ConversionRate.Hz250 => 0b1000
  | ConversionRate.Hz500 => 0b1001
  | ConversionRate.Hz1000 => 0b1010
  | ConversionRate.Hz2000 => 0b1011
  | ConversionRate.Hz4000 => 0b1100
  | ConversionRate.Hz8000 => 0b1101
  | ConversionRate.Hz16000 => 0b1110
  | ConversionRate.Hz32000 => 0b1111

/-- Bipolar range format (`src/types.rs`). -/
inductive Format where
  | OffsetBinary
  | TwosComplement
deriving DecidableEq

/-- Clock source (`src/types.rs`). -/
inductive ClockSource where
  | External
  | Internal
deriving DecidableEq

/-- PGA gain (`src/types.rs`). -/
inductive Pga where
  | X1
  | X2
  | X4
  | X8
  | X16
  | X32
  | X64
  | X128
deriving DecidableEq

/-- Three-bit gain code for each PGA setting, from the `match` in `set_pga`
(`src/lib.rs`). -/
def Pga.gainBits : Pga → Nat
  | Pga.X1 => 0b000
  | Pga.X2 => 0b001
  | Pga.X4 => 0b010
  | Pga.X8 => 0b011
  | Pga.X16 => 0b100
  | Pga.X32 => 0b101
  | Pga.X64 => 0b110
  | Pga.X128 => 0b111

/-- Calibration type (`src/types.rs`). -/
inductive Calibration where
  | SelfCalibration
  | SystemOffsetCalibration
  | SystemFullScaleCalibration
deriving DecidableEq

/-- ADC state (`src/types.rs`). -/
inductive State where
  | Conversion
  | PowerDown
  | Standby
deriving DecidableEq

/-! Command bytes, `src/command.rs`.  Every bit of the `u8` carries a defined
flag (`START`, `MODE`, `CAL`/`RS4`, `IMPD`/`RS3`, `RATE3..0`/`RS2..0`/`RW`),
so `Command::from_bits_truncate` keeps all 8 bits. -/

def Command.START : Nat := 0b10000000

def Command.MODE : Nat := 0b01000000

def Command.CAL : Nat := 0b00100000

def Command.IMPD : Nat := 0b00010000

def Command.RATE : Nat := 0b00001111

def Command.RW : Nat := 0b00000001

def Command.definedBits : Nat := 0b11111111

def Command.from_bits_truncate (b : Nat) : Nat := b &&& Command.definedBits

def Command.new : Nat := Command.START

/-- Source `Command::conversion(rate)`: `START | from_bits_truncate(rate as u8)`. -/
def Command.conversion (rate : Nat) : Nat :=
  Command.new ||| Command.from_bits_truncate rate

/-- Source `Command::register_write(reg)`: `START | MODE | from_bits_truncate(reg << 1)`;
the Rust shift is on `u8`, hence the `% 256`. -/
def Command.register_write (reg : Nat) : Nat :=
  Command.new ||| Command.MODE ||| Command.from_bits_truncate ((reg <<< 1) % 256)

/-- Source `Command::register_read(reg)`: `START | MODE | from_bits_truncate(reg << 1) | RW`. -/
def Command.register_read (reg : Nat) : Nat :=
  Command.new ||| Command.MODE ||| Command.from_bits_truncate ((reg <<< 1) % 256) |||
    Command.RW

/-- Source `Command::power_down()` is called from `src/lib.rs` but its body is not in
`src/command.rs`.  Its encoded byte is fixed by the documented power-down
transaction in the `src/lib.rs` doc example (`write_vec(vec![0b10010000])`,
commented `Power down`): `START | IMPD = 0b10010000`. -/
def Command.power_down : Nat := Command.START ||| Command.IMPD

/-- Modelled from the spec: `Command::calibrate()` is called from `src/lib.rs`
but its body is not in `src/command.rs`.  The spec fixes it as a constant
command byte (`calibrate_command() -> byte: fixed constant triggering
calibration per the current CTRL5 configuration`); taken as `START | CAL`
using the `CAL` flag declared in `src/command.rs`. -/
def Command.calibrate : Nat := Command.START ||| Command.CAL

/-! Status register `Stat` (`src/register.rs`, address `0x0`, width `u16`). -/

def Stat.ADDR : Nat := 0x0

def Stat.INRESET : Nat := 0x8000

def Stat.ERROR : Nat := 0x4000

def Stat.PDSTAT1 : Nat := 0x0800

def Stat.PDSTAT0 : Nat := 0x0400

def Stat.RDERR : Nat := 0x0200

def Stat.AOR : Nat := 0x0100

def Stat.RATE3 : Nat := 0x0080

def Stat.RATE2 : Nat := 0x0040

def Stat.RATE1 : Nat := 0x0020

def Stat.RATE0 : Nat := 0x0010

def Stat.SYSGOR : Nat := 0x0008

def Stat.DOR : Nat := 0x0004

def Stat.MSTAT : Nat := 0x0002

def Stat.RDY : Nat := 0x0001

def Stat.PDSTAT : Nat := Stat.PDSTAT1 ||| Stat.PDSTAT0

def Stat.RATE : Nat := Stat.RATE3 ||| Stat.RATE2 ||| Stat.RATE1 ||| Stat.RATE0

/-- Union of all flag bits declared for `Stat` (bits 12 and 13 of the `u16`
are not declared, so `from_bits_truncate` drops them). -/
def Stat.definedBits : Nat := 0xCFFF

/-- Source `Stat::from_reg` = `Stat::from_bits_truncate`. -/
def Stat.from_reg (raw : Nat) : Nat := raw &&& Stat.definedBits

/-- Source `Stat::rate` (`src/register.rs`): decode the 4-bit rate field
`(self & RATE) >> 4`; the wildcard arm is `unreachable!()`, modelled as
`none`. -/
def Stat.rate (s : Nat) : Option ConversionRate :=
  match (s &&& Stat.RATE) >>> 4 with
  | 0b0000 => some ConversionRate.Hz0_95
  | 0b0001 => some ConversionRate.Hz1_9
  | 0b0010 => some ConversionRate.Hz3_9
  | 0b0011 => some ConversionRate.Hz7_8
  | 0b0100 => some ConversionRate.Hz15_6
  | 0b0101 => some ConversionRate.Hz31_25
  | 0b0110 => some ConversionRate.Hz62_5
  | 0b0111 => some ConversionRate.Hz125
  | 0b1000 => some ConversionRate.Hz250
  | 0b1001 => some ConversionRate.Hz500
  | 0b1010 => some ConversionRate.Hz1000
  | 0b1011 => some ConversionRate.Hz2000
  | 0b1100 => some ConversionRate.Hz4000
  | 0b1101 => some ConversionRate.Hz8000
  | 0b1110 => some ConversionRate.Hz16000
  | 0b1111 => some ConversionRate.Hz32000
  | _ => none

/-! Control register 1 `Ctrl1` (`src/register.rs`, address `0x1`, width `u8`).
All 8 bits are declared flags. -/

def Ctrl1.ADDR : Nat := 0x1

def Ctrl1.CONTSC : Nat := 0b00000001

def Ctrl1.SCYCLE : Nat := 0b00000010

def Ctrl1.FORMAT : Nat := 0b00000100

def Ctrl1.UB : Nat := 0b00001000

def Ctrl1.PD0 : Nat := 0b00010000

def Ctrl1.PD1 : Nat := 0b00100000

def Ctrl1.SYNC : Nat := 0b01000000

def Ctrl1.EXTCK : Nat := 0b10000000

def Ctrl1.definedBits : Nat := 0xFF

/-! Control register 2 `Ctrl2` (`src/register.rs`, address `0x2`, width `u8`).
All 8 bits are declared flags. -/

def Ctrl2.ADDR : Nat := 0x2

def Ctrl2.PGAEN : Nat := 0b00001000

def Ctrl2.PGAG : Nat := 0b00000111

def Ctrl2.definedBits : Nat := 0xFF

def Ctrl2.from_bits_truncate (b : Nat) : Nat := b &&& Ctrl2.definedBits

/-! Control register 5 `Ctrl5` (`src/register.rs`, address `0x5`, width `u8`).
Declared flags are `CAL1`, `CAL0`, `NOSYSG`, `NOSYSO`, `NOSCG`, `NOSCO`
(bits 4 and 5 undeclared), so the defined-bit mask is `0xCF`. -/

def Ctrl5.ADDR : Nat := 0x5

def Ctrl5.CAL1 : Nat := 0b10000000

def Ctrl5.CAL0 : Nat := 0b01000000

def Ctrl5.CAL : Nat := Ctrl5.CAL1 ||| Ctrl5.CAL0

def Ctrl5.definedBits : Nat := 0xCF

/-! The `u24` codec and `Status` accessors, `src/types.rs`. -/

/-- Source `u24`: a 24-bit value stored as 3 raw bytes, big-endian (`src/types.rs`). -/
structure u24 where
  byte0 : Nat
  byte1 : Nat
  byte2 : Nat
deriving DecidableEq

/-- Source `u24::from_be_bytes`: store the three `u8` bytes as given (byte 0 most
significant). -/
def u24.from_be_bytes (b0 b1 b2 : Nat) : u24 :=
  u24.mk (b0 % 256) (b1 % 256) (b2 % 256)

/-- Source `impl From<u24> for u32` (`src/types.rs`): `u32::from_be_bytes([0, byte0,
byte1, byte2])`, i.e. the stored bytes assembled most-significant first with a
zero top byte. -/
def u24.toU32 (n : u24) : Nat :=
  (n.byte0 <<< 16) ||| (n.byte1 <<< 8) ||| n.byte2

/-- Source `impl From<u24> for i32` (`src/types.rs`): `i32::from_be_bytes([0, byte0,
byte1, byte2])` — the same 32-bit word as the `u32` conversion, reinterpreted
as a two's-complement `i32`. -/
def u24.toI32 (n : u24) : Int :=
  let w := (n.byte0 <<< 16) ||| (n.byte1 <<< 8) ||| n.byte2
  if w < 2 ^ 31 then (w : Int) else (w : Int) - 2 ^ 32

/-- Source `Status::data_ready` (`src/types.rs`): `self.status.contains(Stat::RDY)`. -/
def Status.data_ready (s : Nat) : Bool := containsBits s Stat.RDY

/-- Source `Status::modulator_busy` (`src/types.rs`): `contains(Stat::MSTAT)`. -/
def Status.modulator_busy (s : Nat) : Bool := containsBits s Stat.MSTAT

/-- Source `Status::data_overrange` (`src/types.rs`): `contains(Stat::DOR)`. -/
def Status.data_overrange (s : Nat) : Bool := containsBits s Stat.DOR

/-- Source `Status::system_gain_overrange` as written in `src/types.rs` line 160:
it tests `Stat::DOR` (not `Stat::SYSGOR`). -/
def Status.system_gain_overrange (s : Nat) : Bool := containsBits s Stat.DOR

/-- Source `Status::analog_overrange` (`src/types.rs`): `contains(Stat::AOR)`. -/
def Status.analog_overrange (s : Nat) : Bool := containsBits s Stat.AOR

/-- Source `Status::data_read_error` (`src/types.rs`): `contains(Stat::RDERR)`. -/
def Status.data_read_error (s : Nat) : Bool := containsBits s Stat.RDERR

/-- Source `Status::data_rate` (`src/types.rs`): `self.status.rate()`. -/
def Status.data_rate (s : Nat) : Option ConversionRate := Stat.rate s

/-- Source `Status::state` (`src/types.rs`): match on
`self.status.intersection(Stat::PDSTAT).bits() >> 10`; the wildcard arm is
`unreachable!()`, modelled as `none`. -/
def Status.state (s : Nat) : Option State :=
  match (s &&& Stat.PDSTAT) >>> 10 with
  | 0b00 => some State.Conversion
  | 0b01 => some State.PowerDown
  | 0b10 => some State.Standby
  | _ => none

/-- The `Stat` value produced by `status()` from the two response bytes of a
16-bit register read (`read_reg_u16` in `src/lib.rs`):
`Stat::from_reg(u16::from_be_bytes([buf[1], buf[2]]))`. -/
def statusFromBytes (hi lo : Nat) : Nat :=
  Stat.from_reg (((hi % 256) <<< 8) ||| (lo % 256))

/-! SPI transaction trace model for the driver operations in `src/lib.rs`.

An embedded-hal `SpiDevice` call is one bus transaction; `spi.write(buf)` is
a single-write transaction, `spi.transfer_in_place(buf)` a single in-place
transfer, and `spi.transaction(ops)` a transaction holding the listed
operations.  Each driver operation is embedded as the list of transactions it
issues; the byte a register read returns is passed in (`b` below), since the
device itself is external. -/

/-- One operation inside an SPI transaction (embedded-hal `Operation`). -/
inductive SpiOperation where
  | write (bytes : List Nat)
  | transferInPlace (bytes : List Nat)
  | delayNs (ns : Nat)
deriving DecidableEq

/-- One SPI bus transaction: the list of operations performed while chip
select is asserted. -/
abbrev SpiTransaction := List SpiOperation

/-- Transactions issued by `read_reg_u8` (`src/lib.rs`): one in-place transfer
of the read command byte plus a placeholder zero. -/
def read_reg_u8_ops (addr : Nat) : List SpiTransaction :=
  [[SpiOperation.transferInPlace [Command.register_read addr, 0]]]

/-- Transactions issued by `write_reg_u8` (`src/lib.rs`): one write of the
write command byte followed by the register value. -/
def write_reg_u8_ops (addr value : Nat) : List SpiTransaction :=
  [[SpiOperation.write [Command.register_write addr, value]]]

/-- Transactions issued by `write_cmd` (`src/lib.rs`): one single-byte write. -/
def write_cmd_ops (c : Nat) : List SpiTransaction :=
  [[SpiOperation.write [c]]]

/-- Transactions issued by `modify_reg_u8` (`src/lib.rs`): read the register
(the device answers with raw byte `b`, truncated to the register's declared
flag bits by `from_reg`), apply `f`, and write back only when the new value
differs from the value read. -/
def modify_reg_u8_ops (addr mask : Nat) (f : Nat → Nat) (b : Nat) :
    List SpiTransaction :=
  let v := b &&& mask
  let v2 := f v
  read_reg_u8_ops addr ++ (if v2 = v then [] else write_reg_u8_ops addr v2)

/-- Source `Ctrl1` update performed by `into_standby` (`src/lib.rs`):
`ctrl1.union(Ctrl1::PD1).difference(Ctrl1::PD0)`. -/
def standbyCtrl1 (v : Nat) : Nat := byteDiff (v ||| Ctrl1.PD1) Ctrl1.PD0

/-- Source `Ctrl1` update performed by `into_sleep` (`src/lib.rs`):
`ctrl1.difference(Ctrl1::PD1).union(Ctrl1::PD0)`. -/
def sleepCtrl1 (v : Nat) : Nat := byteDiff v Ctrl1.PD1 ||| Ctrl1.PD0

/-- Source `Ctrl1` update performed by `start_conversion` (`src/lib.rs`):
`ctrl1.set(Ctrl1::SCYCLE, !continuous)` then
`.difference(Ctrl1::PD1).difference(Ctrl1::PD0)`. -/
def conversionCtrl1 (continuous : Bool) (v : Nat) : Nat :=
  byteDiff (byteDiff (bitSet v Ctrl1.SCYCLE (!continuous)) Ctrl1.PD1) Ctrl1.PD0

/-- Source `Ctrl1` update performed by `set_clock` (`src/lib.rs`). -/
def clockCtrl1 (clock : ClockSource) (v : Nat) : Nat :=
  match clock with
  | ClockSource.External => v ||| Ctrl1.EXTCK
  | ClockSource.Internal => byteDiff v Ctrl1.EXTCK

/-- Source `Ctrl1` update performed by `set_format` (`src/lib.rs`). -/
def formatCtrl1 (format : Format) (v : Nat) : Nat :=
  match format with
  | Format.OffsetBinary => v ||| Ctrl1.FORMAT
  | Format.TwosComplement => byteDiff v Ctrl1.FORMAT

/-- Source `Ctrl2` update performed by `set_pga` (`src/lib.rs`):
enable the PGA and install the 3-bit gain code, or disable the PGA. -/
def pgaCtrl2 (pga : Option Pga) (v : Nat) : Nat :=
  match pga with
  | some p =>
    byteDiff (v ||| Ctrl2.PGAEN) Ctrl2.PGAG ||| Ctrl2.from_bits_truncate p.gainBits
  | none => byteDiff v Ctrl2.PGAEN

/-- Source `Ctrl5` update performed by `self_calibrate` (`src/lib.rs`): select the
calibration mode in the two `CAL` bits. -/
def calCtrl5 (cal : Calibration) (v : Nat) : Nat :=
  match cal with
  | Calibration.SelfCalibration => byteDiff v Ctrl5.CAL
  | Calibration.SystemOffsetCalibration => byteDiff v Ctrl5.CAL1 ||| Ctrl5.CAL0
  | Calibration.SystemFullScaleCalibration => byteDiff (v ||| Ctrl5.CAL1) Ctrl5.CAL0

/-- Settle delay in nanoseconds chosen by `self_calibrate` (`src/lib.rs`):
`200_000_000` for self-calibration, `100_000_000` otherwise. -/
def calDuration (cal : Calibration) : Nat :=
  match cal with
  | Calibration.SelfCalibration => 200000000
  | Calibration.SystemOffsetCalibration => 100000000
  | Calibration.SystemFullScaleCalibration => 100000000

/-- Transactions issued by `into_standby` (`src/lib.rs`): read-modify-write of
`Ctrl1`, then the power-down command. -/
def into_standby_ops (b : Nat) : List SpiTransaction :=
  modify_reg_u8_ops Ctrl1.ADDR Ctrl1.definedBits standbyCtrl1 b ++
    write_cmd_ops Command.power_down

/-- Transactions issued by `into_sleep` (`src/lib.rs`). -/
def into_sleep_ops (b : Nat) : List SpiTransaction :=
  modify_reg_u8_ops Ctrl1.ADDR Ctrl1.definedBits sleepCtrl1 b ++
    write_cmd_ops Command.power_down

/-- Transactions issued by `start_conversion` (`src/lib.rs`): read-modify-write
of `Ctrl1`, then the conversion command carrying the rate code. -/
def start_conversion_ops (rate : ConversionRate) (continuous : Bool) (b : Nat) :
    List SpiTransaction :=
  modify_reg_u8_ops Ctrl1.ADDR Ctrl1.definedBits (conversionCtrl1 continuous) b ++
    write_cmd_ops (Command.conversion rate.code)

/-- Transactions issued by `set_clock` (`src/lib.rs`). -/
def set_clock_ops (clock : ClockSource) (b : Nat) : List SpiTransaction :=
  modify_reg_u8_ops Ctrl1.ADDR Ctrl1.definedBits (clockCtrl1 clock) b

/-- Transactions issued by `set_format` (`src/lib.rs`). -/
def set_format_ops (format : Format) (b : Nat) : List SpiTransaction :=
  modify_reg_u8_ops Ctrl1.ADDR Ctrl1.definedBits (formatCtrl1 format) b

/-- Transactions issued by `set_pga` (`src/lib.rs`). -/
def set_pga_ops (pga : Option Pga) (b : Nat) : List SpiTransaction :=
  modify_reg_u8_ops Ctrl2.ADDR Ctrl2.definedBits (pgaCtrl2 pga) b

/-- Transactions issued by `self_calibrate` (`src/lib.rs`): read-modify-write
of `Ctrl5`, then one compound transaction writing the calibrate command and
delaying for the settle time. -/
def self_calibrate_ops (cal : Calibration) (b : Nat) : List SpiTransaction :=
  modify_reg_u8_ops Ctrl5.ADDR Ctrl5.definedBits (calCtrl5 cal) b ++
    [[SpiOperation.write [Command.calibrate], SpiOperation.delayNs (calDuration cal)]]

/-- A transaction is a read of register `addr` when it is a single in-place
transfer whose command byte is `register_read addr`. -/
def isRegReadTxn (addr : Nat) : SpiTransaction → Bool
  | [SpiOperation.transferInPlace (c :: _)] => c == Command.register_read addr
  | _ => false

/-- A transaction is a write of register `addr` when it is a single write
whose command byte is `register_write addr`. -/
def isRegWriteTxn (addr : Nat) : SpiTransaction → Bool
  | [SpiOperation.write (c :: _)] => c == Command.register_write addr
  | _ => false

/-- Number of reads of register `addr` in a trace. -/
def countRegReads (addr : Nat) (tr : List SpiTransaction) : Nat :=
  (tr.filter (isRegReadTxn addr)).length

/-- Number of writes of register `addr` in a trace. -/
def countRegWrites (addr : Nat) (tr : List SpiTransaction) : Nat :=
  (tr.filter (isRegWriteTxn addr)).length

/-! Helper lemmas about trace counting. -/

theorem countRegReads_append (addr : Nat) (t1 t2 : List SpiTransaction) :
    countRegReads addr (t1 ++ t2) = countRegReads addr t1 + countRegReads addr t2 := by
  simp [countRegReads, List.filter_append]

theorem countRegWrites_append (addr : Nat) (t1 t2 : List SpiTransaction) :
    countRegWrites addr (t1 ++ t2) = countRegWrites addr t1 + countRegWrites addr t2 := by
  simp [countRegWrites, List.filter_append]

/-- The read-modify-write helper issues exactly one read of its target
register and exactly one write when the computed value differs from the value
read, no write otherwise. -/
theorem modify_counts (addr mask : Nat) (f : Nat → Nat) (b : Nat) :
    countRegReads addr (modify_reg_u8_ops addr mask f b) = 1 ∧
    countRegWrites addr (modify_reg_u8_ops addr mask f b) =
      (if f (b &&& mask) = b &&& mask then 0 else 1) := by
  unfold modify_reg_u8_ops
  by_cases h : f (b &&& mask) = b &&& mask <;>
    simp [h, countRegReads, countRegWrites, read_reg_u8_ops, write_reg_u8_ops,
      isRegReadTxn, isRegWriteTxn]

/-! Claim theorems. -/

/-- C2: for every 5-bit register address `a` (`0 <= a <= 0x1F`), the
register-read command byte equals the register-write command byte with its
lowest bit set, and the register-write command byte is
`0b1100_0000 | (a << 1)`. -/
theorem claim2_register_read_write_relation :
    ∀ a : Nat, a ≤ 0x1F →
      Command.register_read a = Command.register_write a ||| 1 ∧
      Command.register_write a = 0b11000000 ||| (a <<< 1) := by
  decide

/-- Witness for C2 at the concrete address `0x0B`. -/
theorem claim2_register_read_write_relation_witness :
    Command.register_read 0x0B = Command.register_write 0x0B ||| 1 ∧
    Command.register_write 0x0B = 0b11000000 ||| (0x0B <<< 1) :=
  claim2_register_read_write_relation 0x0B (by decide)

/-- C3: for every rate code `r` in `0..=15`, building the conversion command
for `r` and decoding its rate bit pattern through the status register's 4-bit
rate-field formula yields the rate enumeration value whose discriminant is
`r`. -/
theorem claim3_conversion_rate_roundtrip :
    ∀ r : Nat, r < 16 →
      (Stat.rate (((Command.conversion r) &&& Command.RATE) <<< 4)).map
          ConversionRate.code = some r := by
  decide

/-- Witness for C3 at the concrete rate code `7`. -/
theorem claim3_conversion_rate_roundtrip_witness :
    (Stat.rate (((Command.conversion 7) &&& Command.RATE) <<< 4)).map
        ConversionRate.code = some 7 :=
  claim3_conversion_rate_roundtrip 7 (by decide)

/-- C4 counterexample: the power-down command byte does not have bit 6 (the
register-access mode bit) set, refuting the claim that the mode bit is 1. -/
theorem claim4_power_down_mode_bit_counterexample :
    ¬ Command.power_down &&& 0b01000000 = 0b01000000 := by
  decide

/-- C4 amended: the power-down command is the fixed constant `0b10010000`:
start bit (7) set, register-access mode bit (6) clear, `IMPD` bit (4) set,
and the 4-bit rate field zero. -/
theorem claim4_power_down_encoding :
    Command.power_down = 0b10010000 ∧
    Command.power_down &&& 0b10000000 = 0b10000000 ∧
    Command.power_down &&& 0b01000000 = 0 ∧
    Command.power_down &&& 0b00010000 = 0b00010000 ∧
    Command.power_down &&& 0b00001111 = 0 := by
  decide

/-- C5 (code bug evidence): converting the 24-bit value with byte 0 = `0x80`
(bit 23 set) to `i32` yields the positive value `8388608`; the code
zero-extends (top byte of the 32-bit word is `0`), it does not sign-extend to
`-8388608` as the spec states. -/
theorem claim5_toI32_zero_extends_at_sign_bit :
    u24.toI32 (u24.from_be_bytes 0x80 0x00 0x00) = 8388608 ∧
    ¬ u24.toI32 (u24.from_be_bytes 0x80 0x00 0x00) = -8388608 := by
  decide

/-- C6: converting the 24-bit value built from any byte triple to `u32`
yields exactly `b0<<16 | b1<<8 | b2` (zero extension, byte 0 most
significant, no byte reordering). -/
theorem claim6_toU32_roundtrip (b0 b1 b2 : Nat)
    (h0 : b0 < 256) (h1 : b1 < 256) (h2 : b2 < 256) :
    u24.toU32 (u24.from_be_bytes b0 b1 b2) = (b0 <<< 16) ||| (b1 <<< 8) ||| b2 := by
  simp [u24.toU32, u24.from_be_bytes, Nat.mod_eq_of_lt h0, Nat.mod_eq_of_lt h1,
    Nat.mod_eq_of_lt h2]

/-- Witness for C6 at the concrete byte triple `(0xAB, 0xCD, 0xEF)`. -/
theorem claim6_toU32_roundtrip_witness :
    u24.toU32 (u24.from_be_bytes 0xAB 0xCD 0xEF) =
      (0xAB <<< 16) ||| (0xCD <<< 8) ||| 0xEF :=
  claim6_toU32_roundtrip 0xAB 0xCD 0xEF (by decide) (by decide) (by decide)

/-- C7: on a raw status value whose 2-bit power-state field (bits 11:10) holds
the reserved code `0b11`, `Status::state` hits the `unreachable!()` branch
(modelled as `none`); for field codes `0b00`, `0b01`, `0b10` it returns
`Conversion`, `PowerDown`, `Standby` respectively without panicking. -/
theorem claim7_state_reserved_code_panics (raw : Nat) :
    ((raw &&& Stat.PDSTAT) >>> 10 = 0b11 → Status.state raw = none) ∧
    ((raw &&& Stat.PDSTAT) >>> 10 = 0b00 → Status.state raw = some State.Conversion) ∧
    ((raw &&& Stat.PDSTAT) >>> 10 = 0b01 → Status.state raw = some State.PowerDown) ∧
    ((raw &&& Stat.PDSTAT) >>> 10 = 0b10 → Status.state raw = some State.Standby) := by
  refine ⟨fun h => ?_, fun h => ?_, fun h => ?_, fun h => ?_⟩ <;>
    · unfold Status.state
      rw [h]

/-- Witness for C7 at the four concrete field values. -/
theorem claim7_state_reserved_code_panics_witness :
    Status.state 0x0C00 = none ∧
    Status.state 0x0000 = some State.Conversion ∧
    Status.state 0x0400 = some State.PowerDown ∧
    Status.state 0x0800 = some State.Standby :=
  ⟨(claim7_state_reserved_code_panics 0x0C00).1 (by decide),
   (claim7_state_reserved_code_panics 0x0000).2.1 (by decide),
   (claim7_state_reserved_code_panics 0x0400).2.2.1 (by decide),
   (claim7_state_reserved_code_panics 0x0800).2.2.2 (by decide)⟩

/-- C8 counterexample: the status register value decoded from the big-endian
byte pair `0b01000000, 0b00010000` does not yield state `PowerDown` (its
power-state field, bits 11:10, is `0b00`). -/
theorem claim8_status_bytes_not_powerdown :
    ¬ Status.state (statusFromBytes 0b01000000 0b00010000) = some State.PowerDown := by
  decide

/-- C8 amended: decoding the status value from the byte pair
`0b01000000, 0b00010000` yields state `Conversion`; state `PowerDown` is
decoded from the byte pair `0b00000100, 0b00000000` instead (as in the
`src/lib.rs` doc example). -/
theorem claim8_status_bytes_decode_conversion :
    Status.state (statusFromBytes 0b01000000 0b00010000) = some State.Conversion ∧
    Status.state (statusFromBytes 0b00000100 0b00000000) = some State.PowerDown := by
  decide

/-- C9 (code bug evidence): as written, `data_overrange` and
`system_gain_overrange` both test `Stat::DOR`, so they agree on every raw
status value — no value distinguishes them; in particular on a status with
`SYSGOR` set and `DOR` clear, `system_gain_overrange` returns `false`. -/
theorem claim9_overrange_flags_identical_in_code :
    (∀ s : Nat, Status.data_overrange s = Status.system_gain_overrange s) ∧
    Status.system_gain_overrange (Stat.from_reg Stat.SYSGOR) = false ∧
    Status.data_overrange (Stat.from_reg Stat.SYSGOR) = false :=
  ⟨fun _ => rfl, by decide, by decide⟩

/-- C1: every register-modifying operation of a Standby/Sleep-mode handle
(`into_standby`, `into_sleep`, `start_conversion`, `set_clock`, `set_format`,
`set_pga`, `self_calibrate`) performs exactly one read of its target control
register and issues a register write only when the computed new value differs
from the value read; in particular `into_standby` on a device whose `CTRL1`
already reads `0b00100000` performs exactly one `CTRL1` read and zero `CTRL1`
writes, followed by the power-down command write. -/
theorem claim1_read_modify_write_discipline :
    ∀ (b : Nat) (rate : ConversionRate) (continuous : Bool) (clock : ClockSource)
      (format : Format) (pga : Option Pga) (cal : Calibration),
      (countRegReads Ctrl1.ADDR (into_standby_ops b) = 1 ∧
        countRegWrites Ctrl1.ADDR (into_standby_ops b) =
          (if standbyCtrl1 (b &&& Ctrl1.definedBits) = b &&& Ctrl1.definedBits
            then 0 else 1)) ∧
      (countRegReads Ctrl1.ADDR (into_sleep_ops b) = 1 ∧
        countRegWrites Ctrl1.ADDR (into_sleep_ops b) =
          (if sleepCtrl1 (b &&& Ctrl1.definedBits) = b &&& Ctrl1.definedBits
            then 0 else 1)) ∧
      (countRegReads Ctrl1.ADDR (start_conversion_ops rate continuous b) = 1 ∧
        countRegWrites Ctrl1.ADDR (start_conversion_ops rate continuous b) =
          (if conversionCtrl1 continuous (b &&& Ctrl1.definedBits) =
              b &&& Ctrl1.definedBits then 0 else 1)) ∧
      (countRegReads Ctrl1.ADDR (set_clock_ops clock b) = 1 ∧
        countRegWrites Ctrl1.ADDR (set_clock_ops clock b) =
          (if clockCtrl1 clock (b &&& Ctrl1.definedBits) = b &&& Ctrl1.definedBits
            then 0 else 1)) ∧
      (countRegReads Ctrl1.ADDR (set_format_ops format b) = 1 ∧
        countRegWrites Ctrl1.ADDR (set_format_ops format b) =
          (if formatCtrl1 format (b &&& Ctrl1.definedBits) = b &&& Ctrl1.definedBits
            then 0 else 1)) ∧
      (countRegReads Ctrl2.ADDR (set_pga_ops pga b) = 1 ∧
        countRegWrites Ctrl2.ADDR (set_pga_ops pga b) =
          (if pgaCtrl2 pga (b &&& Ctrl2.definedBits) = b &&& Ctrl2.definedBits
            then 0 else 1)) ∧
      (countRegReads Ctrl5.ADDR (self_calibrate_ops cal b) = 1 ∧
        countRegWrites Ctrl5.ADDR (self_calibrate_ops cal b) =
          (if calCtrl5 cal (b &&& Ctrl5.definedBits) = b &&& Ctrl5.definedBits
            then 0 else 1)) ∧
      into_standby_ops 0b00100000 =
        [[SpiOperation.transferInPlace [Command.register_read Ctrl1.ADDR, 0]],
         [SpiOperation.write [Command.power_down]]] := by
  intro b rate continuous clock format pga cal
  refine ⟨?_, ?_, ?_, ?_, ?_, ?_, ?_, ?_⟩
  · have h := modify_counts Ctrl1.ADDR Ctrl1.definedBits standbyCtrl1 b
    constructor
    · unfold into_standby_ops
      rw [countRegReads_append, h.1]
      decide
    · unfold into_standby_ops
      have hz : countRegWrites Ctrl1.ADDR (write_cmd_ops Command.power_down) = 0 := by
        decide
      rw [countRegWrites_append, h.2, hz, Nat.add_zero]
  · have h := modify_counts Ctrl1.ADDR Ctrl1.definedBits sleepCtrl1 b
    constructor
    · unfold into_sleep_ops
      rw [countRegReads_append, h.1]
      decide
    · unfold into_sleep_ops
      have hz : countRegWrites Ctrl1.ADDR (write_cmd_ops Command.power_down) = 0 := by
        decide
      rw [countRegWrites_append, h.2, hz, Nat.add_zero]
  · have h := modify_counts Ctrl1.ADDR Ctrl1.definedBits (conversionCtrl1 continuous) b
    constructor
    · unfold start_conversion_ops
      have hr : countRegReads Ctrl1.ADDR
          (write_cmd_ops (Command.conversion rate.code)) = 0 := rfl
      rw [countRegReads_append, h.1, hr]
    · unfold start_conversion_ops
      have hz : countRegWrites Ctrl1.ADDR
          (write_cmd_ops (Command.conversion rate.code)) = 0 := by
        cases rate <;> decide
      rw [countRegWrites_append, h.2, hz, Nat.add_zero]
  · exact modify_counts Ctrl1.ADDR Ctrl1.definedBits (clockCtrl1 clock) b
  · exact modify_counts Ctrl1.ADDR Ctrl1.definedBits (formatCtrl1 format) b
  · exact modify_counts Ctrl2.ADDR Ctrl2.definedBits (pgaCtrl2 pga) b
  · have h := modify_counts Ctrl5.ADDR Ctrl5.definedBits (calCtrl5 cal) b
    constructor
    · unfold self_calibrate_ops
      have hr : countRegReads Ctrl5.ADDR
          [[SpiOperation.write [Command.calibrate],
            SpiOperation.delayNs (calDuration cal)]] = 0 := rfl
      rw [countRegReads_append, h.1, hr]
    · unfold self_calibrate_ops
      have hz : countRegWrites Ctrl5.ADDR
          [[SpiOperation.write [Command.calibrate],
            SpiOperation.delayNs (calDuration cal)]] = 0 := rfl
      rw [countRegWrites_append, h.2, hz, Nat.add_zero]
  · decide

/-- C10: for any Standby/Sleep-mode handle, `self_calibrate` performs the
read-modify-write of the `CTRL5` `CAL` mode bits, then issues one compound
transport transaction holding the calibrate command write followed by the
settle delay (so the delay elapses within that transaction, before the call
returns); the delay is 200 ms (in nanoseconds) for `SelfCalibration` and
100 ms for `SystemOffsetCalibration` and `SystemFullScaleCalibration`. -/
theorem claim10_self_calibrate_delay :
    ∀ (cal : Calibration) (b : Nat),
      (self_calibrate_ops cal b).getLast? =
        some [SpiOperation.write [Command.calibrate],
          SpiOperation.delayNs (calDuration cal)] ∧
      countRegReads Ctrl5.ADDR (self_calibrate_ops cal b) = 1 ∧
      countRegWrites Ctrl5.ADDR (self_calibrate_ops cal b) =
        (if calCtrl5 cal (b &&& Ctrl5.definedBits) = b &&& Ctrl5.definedBits
          then 0 else 1) ∧
      calDuration Calibration.SelfCalibration = 200 * 1000000 ∧
      calDuration Calibration.SystemOffsetCalibration = 100 * 1000000 ∧
      calDuration Calibration.SystemFullScaleCalibration = 100 * 1000000 := by
  intro cal b
  have h := modify_counts Ctrl5.ADDR Ctrl5.definedBits (calCtrl5 cal) b
  refine ⟨?_, ?_, ?_, by decide, by decide, by decide⟩
  · unfold self_calibrate_ops
    rw [List.getLast?_concat]
  · unfold self_calibrate_ops
    have hr : countRegReads Ctrl5.ADDR
        [[SpiOperation.write [Command.calibrate],
          SpiOperation.delayNs (calDuration cal)]] = 0 := rfl
    rw [countRegReads_append, h.1, hr]
  · unfold self_calibrate_ops
    have hz : countRegWrites Ctrl5.ADDR
        [[SpiOperation.write [Command.calibrate],
          SpiOperation.delayNs (calDuration cal)]] = 0 := rfl
    rw [countRegWrites_append, h.2, hz, Nat.add_zero]
